import Mathlib

/-!
Verification of the prompt/response generation and fallback-templating
subsystem of the pitch-pro repository.

The definitions below are a shallow embedding of the JavaScript sources:
  * src/server/utils/validators.js (quoted in src/AI-CODE-GENERATOR-FEATURE.md):
    validateCodePromptInput
  * src/server/services/code-prompt-generator.js:
    generateEnhancedCodePrompt, parseStructuredResponse,
    generateIntelligentTemplate, inferTechStack, extractFeaturesFromIdea,
    extractFeatures, generateSummary, generateDefaultFileStructure,
    createComprehensiveTemplate
  * src/server/routes/code-prompt.js: the POST /code-prompt handler
  * src/unnamed/part_012 (routes/generate.js): the POST /generate handler
  * src/server/services/deepseek.js: generatePitch and its error translation

JavaScript values that flow through these functions (request bodies parsed
from JSON, parsed remote responses) are modelled by the inductive type
`JVal`.  Machine strings are modelled by Lean `String` (lengths count
characters; the sources only apply length checks which agree on such
strings), and the remote HTTP call is modelled as an explicit outcome
parameter, since the code treats it as an opaque awaited call.
-/

/-- A JavaScript value as it can appear in a JSON-parsed request body or
remote response.  `undef` models JavaScript `undefined` (an absent field);
it is never produced by the JSON parser itself.  Numbers are modelled
exactly as the JSON grammar produces them: a decimal mantissa `m` and a
power-of-ten exponent `e`, denoting `m * 10 ^ e`. -/
inductive JVal where
  | undef : JVal
  | jnull : JVal
  | jbool : Bool → JVal
  | jnum : Int → Int → JVal
  | jstr : String → JVal
  | jarr : List JVal → JVal
  | jobj : List (String × JVal) → JVal

/-- JavaScript truthiness of a `JVal` (`undefined`, `null`, `false`, `0`
and the empty string are falsy; objects and arrays are always truthy). -/
def truthy : JVal → Bool
  | JVal.undef => false
  | JVal.jnull => false
  | JVal.jbool b => b
  | JVal.jnum m _ => m != 0
  | JVal.jstr s => s != ""
  | JVal.jarr _ => true
  | JVal.jobj _ => true

/-- The JavaScript `typeof` operator on a `JVal` (note `typeof null` and
`typeof` of an array are both the string `object`). -/
def typeofStr : JVal → String
  | JVal.undef => "undefined"
  | JVal.jnull => "object"
  | JVal.jbool _ => "boolean"
  | JVal.jnum _ _ => "number"
  | JVal.jstr _ => "string"
  | JVal.jarr _ => "object"
  | JVal.jobj _ => "object"

/-- JavaScript `Array.isArray`. -/
def isArr : JVal → Bool
  | JVal.jarr _ => true
  | _ => false

/-- Property access `v.k` (and the guarded `v?.k` at the call sites where
the code uses it): looks the key up in an object, with later duplicate
keys shadowing earlier ones exactly as in a JavaScript object literal;
every other receiver yields `undefined`. -/
def getField : JVal → String → JVal
  | JVal.jobj fields, k => fields.foldl (fun acc p => if p.1 = k then p.2 else acc) JVal.undef
  | _, _ => JVal.undef

/-- The string payload of a `JVal` known to be a string (used only after
a `typeof x === "string"` guard has succeeded in the modelled code). -/
def strOf : JVal → String
  | JVal.jstr s => s
  | _ => ""

/-- A whitespace character as matched by JavaScript string trimming and by
`\s` in the blocked-pattern regexes (modelled over the ASCII whitespace
characters the sources can meet). -/
def wsChar (c : Char) : Bool := c = ' ' ∨ c = '\t' ∨ c = '\n' ∨ c = '\r'

/-- JavaScript `s.trim()`: strip leading and trailing whitespace. -/
def jsTrim (s : String) : String :=
  String.mk (((s.data.dropWhile wsChar).reverse.dropWhile wsChar).reverse)

/-- ASCII lower-casing of one character (JavaScript `toLowerCase` on the
ASCII range, which is all the sources compare against). -/
def lcChar (c : Char) : Char := if 'A' ≤ c ∧ c ≤ 'Z' then Char.ofNat (c.toNat + 32) else c

/-- JavaScript `s.toLowerCase()`. -/
def jsToLower (s : String) : String := String.mk (s.data.map lcChar)

/-- Is `needle` a prefix of `hay` (on character lists)? -/
def listIsPrefix : List Char → List Char → Bool
  | [], _ => true
  | _ :: _, [] => false
  | a :: as, b :: bs => a == b && listIsPrefix as bs

/-- Does `hay` contain `needle` as a contiguous sublist? -/
def listContains (needle : List Char) : List Char → Bool
  | [] => listIsPrefix needle []
  | c :: cs => listIsPrefix needle (c :: cs) || listContains needle cs

/-- JavaScript `hay.includes(pat)` on strings. -/
def hasSub (hay pat : String) : Bool :=
  listContains pat.data hay.data

/-- The tail of the regex `/script\s*:/`: zero or more whitespace
characters followed by a colon. -/
def scriptColonGap : List Char → Bool
  | [] => false
  | c :: cs =>
    if c = ':' then true
    else if c = ' ' ∨ c = '\t' ∨ c = '\n' ∨ c = '\r' then scriptColonGap cs
    else false

/-- Unanchored search for the regex `/script\s*:/` over a character list
(the input is already lower-cased, modelling the `/i` flag). -/
def scriptColonSearch : List Char → Bool
  | [] => false
  | c :: cs =>
    (listIsPrefix ['s', 'c', 'r', 'i', 'p', 't'] (c :: cs) && scriptColonGap ((c :: cs).drop 6))
      || scriptColonSearch cs

/-- The harmful-content test of `validateCodePromptInput`: the four blocked
patterns `/script\s*:/i`, `/<script/i`, `/javascript:/i`,
`/data:text\/html/i`, matched case-insensitively (modelled by lower-casing
the subject, since all pattern letters are ASCII). -/
def harmfulTest (t : String) : Bool :=
  let lower := jsToLower t
  scriptColonSearch lower.data
    || hasSub lower "<script"
    || hasSub lower "javascript:"
    || hasSub lower "data:text/html"

/-- Result record of `validateCodePromptInput`. -/
structure ValidationResult where
  isValid : Bool
  error : Option String
  details : List String

/-- The `idea` checks of `validateCodePromptInput` (validators.js): a falsy
idea is "required"; a truthy non-string is rejected; for a string the
trimmed text runs through the empty/short/long chain and then, regardless
of the outcome of that chain, through the harmful-content check. -/
def ideaErrorsOf (idea : JVal) : List String :=
  if truthy idea = false then ["Idea is required"]
  else
    match idea with
    | JVal.jstr s =>
      (if (jsTrim s).length = 0 then ["Idea cannot be empty"]
       else if (jsTrim s).length < 10 then ["Idea must be at least 10 characters long"]
       else if 2000 < (jsTrim s).length then ["Idea must be less than 2000 characters"]
       else [])
        ++ (if harmfulTest (jsTrim s) then ["Idea contains potentially harmful content"] else [])
    | _ => ["Idea must be a string"]

/-- The `pitchData` checks of `validateCodePromptInput` (validators.js):
skipped entirely for `null`/`undefined`; a supplied value whose `typeof`
is not `object` is rejected; otherwise each of `name`/`elevator`/`slides`
is checked only when truthy (the code tests `name && typeof name !== ...`),
appending one distinct message per violation. -/
def pitchErrorsOf (pd : JVal) : List String :=
  match pd with
  | JVal.undef => []
  | JVal.jnull => []
  | pd' =>
    if typeofStr pd' ≠ "object" then ["Pitch data must be an object"]
    else
      (if truthy (getField pd' "name") && !(typeofStr (getField pd' "name") == "string") then
        ["Pitch name must be a string"]
       else [])
        ++ (if truthy (getField pd' "elevator")
              && !(typeofStr (getField pd' "elevator") == "string") then
             ["Elevator pitch must be a string"]
            else [])
        ++ (if truthy (getField pd' "slides") && !(isArr (getField pd' "slides")) then
             ["Slides must be an array"]
            else [])

/-- `validateCodePromptInput` from validators.js; the accumulated `errors`
array is the idea checks followed by the pitch-data checks (the source
pushes into one array in exactly this order). -/
def validateCodePromptInput (idea pd : JVal) : ValidationResult :=
  let errors := ideaErrorsOf idea ++ pitchErrorsOf pd
  { isValid := errors.isEmpty, error := errors.head?, details := errors }

/-- The idea-rule messages in the order the validator can emit them. -/
def ideaMsgOrder : List String :=
  ["Idea is required", "Idea must be a string", "Idea cannot be empty",
   "Idea must be at least 10 characters long", "Idea must be less than 2000 characters",
   "Idea contains potentially harmful content"]

/-- The pitch-data-rule messages in the order the validator can emit them. -/
def pitchMsgOrder : List String :=
  ["Pitch data must be an object", "Pitch name must be a string",
   "Elevator pitch must be a string", "Slides must be an array"]

/-- All validator messages in the fixed rule order: required, must-be-string,
empty/too-short/too-long, harmful content, then the pitch-data shape rules. -/
def canonicalMsgOrder : List String := ideaMsgOrder ++ pitchMsgOrder

/-!  ## JSON parsing

`JSON.parse`, as used by `parseStructuredResponse` and `generatePitch`, is
modelled by a strict recursive-descent parser over the character list.  A
fuel counter amply larger than the input drives termination; the parser
consumes input at every nested step, so the fuel never runs out on an
input the grammar accepts. -/

/-- JSON whitespace skipping. -/
def skipWs : List Char → List Char
  | [] => []
  | c :: cs => if c = ' ' ∨ c = '\t' ∨ c = '\n' ∨ c = '\r' then skipWs cs else c :: cs

/-- Value of one hexadecimal digit. -/
def hexVal (c : Char) : Option Nat :=
  if '0' ≤ c ∧ c ≤ '9' then some (c.toNat - 48)
  else if 'a' ≤ c ∧ c ≤ 'f' then some (c.toNat - 87)
  else if 'A' ≤ c ∧ c ≤ 'F' then some (c.toNat - 55)
  else none

/-- Body of a JSON string, after the opening quote: returns the decoded
content and the input following the closing quote. -/
def parseStrBody : Nat → List Char → Option (String × List Char)
  | 0, _ => none
  | _, [] => none
  | f + 1, c :: cs =>
    if c = '"' then some ("", cs)
    else if c = '\\' then
      match cs with
      | [] => none
      | e :: cs2 =>
        let dec : Option (Char × List Char) :=
          if e = '"' then some ('"', cs2)
          else if e = '\\' then some ('\\', cs2)
          else if e = '/' then some ('/', cs2)
          else if e = 'b' then some (Char.ofNat 8, cs2)
          else if e = 'f' then some (Char.ofNat 12, cs2)
          else if e = 'n' then some ('\n', cs2)
          else if e = 'r' then some ('\r', cs2)
          else if e = 't' then some ('\t', cs2)
          else if e = 'u' then
            match cs2 with
            | h1 :: h2 :: h3 :: h4 :: cs3 =>
              match hexVal h1, hexVal h2, hexVal h3, hexVal h4 with
              | some a, some b, some c2, some d =>
                some (Char.ofNat (((a * 16 + b) * 16 + c2) * 16 + d), cs3)
              | _, _, _, _ => none
            | _ => none
          else none
        match dec with
        | some (ch, rest) =>
          match parseStrBody f rest with
          | some (s, r) => some (String.mk (ch :: s.data), r)
          | none => none
        | none => none
    else if c.toNat < 32 then none
    else
      match parseStrBody f cs with
      | some (s, r) => some (String.mk (c :: s.data), r)
      | none => none

/-- Longest leading run of decimal digits, and the rest. -/
def digitsOf : List Char → List Char × List Char
  | [] => ([], [])
  | c :: cs =>
    if c.isDigit then
      let p := digitsOf cs
      (c :: p.1, p.2)
    else ([], c :: cs)

/-- Decimal digits to a natural number. -/
def digitsToNat (ds : List Char) : Nat :=
  ds.foldl (fun acc c => acc * 10 + (c.toNat - 48)) 0

/-- A JSON number per the strict JSON grammar (`-? int frac? exp?`, no
leading zeros): returns mantissa and power-of-ten exponent. -/
def parseNumber (cs : List Char) : Option ((Int × Int) × List Char) :=
  let signed : Bool × List Char := match cs with | '-' :: r => (true, r) | _ => (false, cs)
  let neg := signed.1
  let ipr := digitsOf signed.2
  let ids := ipr.1
  if ids = [] then none
  else if 2 ≤ ids.length ∧ ids.headD 'x' = '0' then none
  else
    let fr : Option (List Char × List Char) :=
      match ipr.2 with
      | '.' :: r =>
        let p := digitsOf r
        if p.1 = [] then none else some p
      | _ => some ([], ipr.2)
    match fr with
    | none => none
    | some (fds, cs3) =>
      let ex : Option (Int × List Char) :=
        match cs3 with
        | c :: r =>
          if c = 'e' ∨ c = 'E' then
            let sp : Bool × List Char :=
              match r with
              | '+' :: r2 => (false, r2)
              | '-' :: r2 => (true, r2)
              | _ => (false, r)
            let p := digitsOf sp.2
            if p.1 = [] then none
            else some ((if sp.1 then -(digitsToNat p.1 : Int) else (digitsToNat p.1 : Int)), p.2)
          else some (0, c :: r)
        | [] => some (0, [])
      match ex with
      | none => none
      | some (expv, cs4) =>
        let mant : Nat := digitsToNat (ids ++ fds)
        let m : Int := if neg then -(mant : Int) else (mant : Int)
        some ((m, expv - (fds.length : Int)), cs4)

/-- Parser mode: a value, the members of an object after `{`, or the
items of an array after `[` (both in the non-empty case). -/
inductive PMode where
  | val : PMode
  | objItems : PMode
  | arrItems : PMode

/-- Parser output, one constructor per mode. -/
inductive POut where
  | pv : JVal → POut
  | pfields : List (String × JVal) → POut
  | pitems : List JVal → POut

/-- The recursive-descent core of `JSON.parse`, all three modes in one
fuel-indexed function so that it is structurally recursive. -/
def parseCore : Nat → PMode → List Char → Option (POut × List Char)
  | 0, _, _ => none
  | f + 1, PMode.val, cs =>
    (match skipWs cs with
     | '{' :: rest =>
       (match skipWs rest with
        | '}' :: r => some (POut.pv (JVal.jobj []), r)
        | r =>
          match parseCore f PMode.objItems r with
          | some (POut.pfields fields, r2) => some (POut.pv (JVal.jobj fields), r2)
          | _ => none)
     | '[' :: rest =>
       (match skipWs rest with
        | ']' :: r => some (POut.pv (JVal.jarr []), r)
        | r =>
          match parseCore f PMode.arrItems r with
          | some (POut.pitems vs, r2) => some (POut.pv (JVal.jarr vs), r2)
          | _ => none)
     | '"' :: rest =>
       (match parseStrBody (rest.length + 1) rest with
        | some (s, r) => some (POut.pv (JVal.jstr s), r)
        | none => none)
     | 't' :: 'r' :: 'u' :: 'e' :: r => some (POut.pv (JVal.jbool true), r)
     | 'f' :: 'a' :: 'l' :: 's' :: 'e' :: r => some (POut.pv (JVal.jbool false), r)
     | 'n' :: 'u' :: 'l' :: 'l' :: r => some (POut.pv JVal.jnull, r)
     | cs2 =>
       match parseNumber cs2 with
       | some ((m, e), r) => some (POut.pv (JVal.jnum m e), r)
       | none => none)
  | f + 1, PMode.objItems, cs =>
    (match skipWs cs with
     | '"' :: rest =>
       (match parseStrBody (rest.length + 1) rest with
        | some (key, r) =>
          (match skipWs r with
           | ':' :: r2 =>
             (match parseCore f PMode.val r2 with
              | some (POut.pv v, r3) =>
                (match skipWs r3 with
                 | ',' :: r4 =>
                   (match parseCore f PMode.objItems r4 with
                    | some (POut.pfields fields, r5) => some (POut.pfields ((key, v) :: fields), r5)
                    | _ => none)
                 | '}' :: r4 => some (POut.pfields [(key, v)], r4)
                 | _ => none)
              | _ => none)
           | _ => none)
        | none => none)
     | _ => none)
  | f + 1, PMode.arrItems, cs =>
    (match parseCore f PMode.val cs with
     | some (POut.pv v, r) =>
       (match skipWs r with
        | ',' :: r2 =>
          (match parseCore f PMode.arrItems r2 with
           | some (POut.pitems vs, r3) => some (POut.pitems (v :: vs), r3)
           | _ => none)
        | ']' :: r2 => some (POut.pitems [v], r2)
        | _ => none)
     | _ => none)

/-- `JSON.parse`: a single JSON value followed only by whitespace. -/
def parseJson (s : String) : Option JVal :=
  match parseCore (2 * s.data.length + 4) PMode.val s.data with
  | some (POut.pv v, rest) => if skipWs rest = [] then some v else none
  | _ => none

/-- Suffix of the list starting at the first occurrence of `target`
(`none` when absent). -/
def dropUntilChar (target : Char) : List Char → Option (List Char)
  | [] => none
  | c :: cs => if c = target then some (c :: cs) else dropUntilChar target cs

/-- The substring matched by `content.match(/\{[\s\S]*\}/)` in
`parseStructuredResponse`: since `[\s\S]*` is greedy, this is the span
from the first `{` of the text to the last `}` (when a `}` follows the
first `{`); not a balanced-brace search. -/
def jsonSpanOf (content : String) : Option String :=
  match dropUntilChar '{' content.data with
  | none => none
  | some tail =>
    match dropUntilChar '}' tail.reverse with
    | none => none
    | some revSpan => some (String.mk revSpan.reverse)

/-!  ## Local inference: tech stack, features, summary -/

/-- `inferTechStack` from code-prompt-generator.js: a fixed baseline, then
keyword-triggered additions, then the fixed closing tools. -/
def inferTechStack (idea content : String) : List String :=
  let analysisText := jsToLower (idea ++ " " ++ content)
  ["MongoDB", "Express.js", "React", "Node.js", "Tailwind CSS"]
    ++ (if hasSub analysisText "login" ∨ hasSub analysisText "user"
          ∨ hasSub analysisText "account" then ["JWT", "bcrypt"] else [])
    ++ (if hasSub analysisText "pay" ∨ hasSub analysisText "subscription"
          ∨ hasSub analysisText "purchase" then ["Stripe"] else [])
    ++ (if hasSub analysisText "chat" ∨ hasSub analysisText "live"
          ∨ hasSub analysisText "real-time" then ["Socket.io"] else [])
    ++ (if hasSub analysisText "upload" ∨ hasSub analysisText "photo"
          ∨ hasSub analysisText "image" then ["Multer", "Cloudinary"] else [])
    ++ (if hasSub analysisText "email" ∨ hasSub analysisText "notification"
          then ["Nodemailer"] else [])
    ++ ["Swagger/OpenAPI", "Vite", "ESLint", "Prettier"]

/-- Matcher for one alternative of a feature regex: a chain of literals
separated by `.*` gaps.  In mode `false` the chain must start at the head
of the input; in mode `true` a gap of non-newline characters (JavaScript
`.` does not match a newline) may come first.  Fuel-driven, decreasing on
every step. -/
def chainMatch : Nat → Bool → List (List Char) → List Char → Bool
  | 0, _, _, _ => false
  | _ + 1, _, [], _ => true
  | f + 1, false, lit :: rest, hay =>
    listIsPrefix lit hay && chainMatch f true rest (hay.drop lit.length)
  | f + 1, true, lit :: rest, hay =>
    chainMatch f false (lit :: rest) hay
      || (match hay with
          | [] => false
          | c :: cs => c ≠ '\n' && chainMatch f true (lit :: rest) cs)

/-- All suffixes of a character list (candidate unanchored match starts). -/
def suffixesOf : List Char → List (List Char)
  | [] => [[]]
  | c :: cs => (c :: cs) :: suffixesOf cs

/-- Unanchored search for one chain alternative. -/
def patChainTest (chain : List String) (hay : List Char) : Bool :=
  (suffixesOf hay).any fun h =>
    chainMatch (h.length + 2 * chain.length + 2) false (chain.map String.data) h

/-- A feature regex is an alternation of chains; test each. -/
def patTest (pat : List (List String)) (hay : List Char) : Bool :=
  pat.any fun chain => patChainTest chain hay

/-- The fixed feature pattern table of `extractFeaturesFromIdea`, in scan
order; each entry is the regex (alternation of `.*`-chains) paired with
its feature label. -/
def featurePatterns : List (List (List String) × String) :=
  [([["user", "registration"], ["sign", "up"], ["create", "account"]],
     "User Registration & Authentication"),
   ([["login"], ["sign", "in"], ["authenticate"]], "User Login System"),
   ([["profile"], ["dashboard"]], "User Dashboard & Profile Management"),
   ([["search"], ["find"], ["discover"]], "Search & Discovery"),
   ([["chat"], ["message"], ["communication"]], "Real-time Messaging"),
   ([["payment"], ["pay"], ["subscription"], ["billing"]], "Payment Processing"),
   ([["upload"], ["share"], ["post"]], "Content Upload & Sharing"),
   ([["notification"], ["alert"]], "Notification System"),
   ([["admin"], ["management"]], "Admin Panel"),
   ([["mobile"], ["responsive"]], "Mobile-Responsive Design"),
   ([["api"], ["integration"]], "RESTful API"),
   ([["social"], ["network"]], "Social Features"),
   ([["analytics"], ["tracking"]], "Analytics & Tracking"),
   ([["review"], ["rating"], ["feedback"]], "Review & Rating System")]

/-- `extractFeaturesFromIdea`: collect the label of every matching
pattern, falling back to the fixed three-item generic list when nothing
matched. -/
def extractFeaturesFromIdea (idea : String) : List String :=
  let lowerIdea := (jsToLower idea).data
  let features := featurePatterns.filterMap fun pf =>
    if patTest pf.1 lowerIdea then some pf.2 else none
  if features.isEmpty then ["Core Application Logic", "User Interface", "Data Management"]
  else features

/-- Deduplication keeping first occurrences (JavaScript
`[...new Set(list)]`). -/
def dedupAcc (seen : List String) : List String → List String
  | [] => []
  | x :: xs => if seen.contains x then dedupAcc seen xs else x :: dedupAcc (x :: seen) xs

/-- See `dedupAcc`. -/
def dedupFirst (l : List String) : List String := dedupAcc [] l

/-- `extractFeatures(content, idea)`: idea features plus content-keyword
features, deduplicated via a `Set`. -/
def extractFeatures (content idea : String) : List String :=
  let features := extractFeaturesFromIdea idea
  let lowerContent := jsToLower content
  let contentFeatures :=
    (if hasSub lowerContent "websocket" ∨ hasSub lowerContent "socket.io"
      then ["Real-time Features"] else [])
      ++ (if hasSub lowerContent "stripe" ∨ hasSub lowerContent "payment"
           then ["Payment Integration"] else [])
      ++ (if hasSub lowerContent "jwt" ∨ hasSub lowerContent "authentication"
           then ["Authentication System"] else [])
  dedupFirst (features ++ contentFeatures)

/-- `String.split(sep)` on one separator character. -/
def splitOnCharAux (sep : Char) (acc : List Char) : List Char → List (List Char)
  | [] => [acc.reverse]
  | c :: cs =>
    if c = sep then acc.reverse :: splitOnCharAux sep [] cs
    else splitOnCharAux sep (c :: acc) cs

/-- See `splitOnCharAux`. -/
def splitOnChar (sep : Char) (cs : List Char) : List (List Char) :=
  splitOnCharAux sep [] cs

/-- `generateSummary` from code-prompt-generator.js.  When the idea has no
non-empty sentence, the source evaluates
`sentences[0]?.trim() + '.' || idea.substring(0, 150) + '...'`: optional
chaining yields `undefined`, string concatenation turns it into the truthy
string `"undefined."`, so the `||` fallback on the right is dead code and
the function returns the literal string `"undefined."`. -/
def generateSummary (idea : String) (pitchData : JVal) : JVal :=
  if truthy (getField pitchData "elevator") then getField pitchData "elevator"
  else
    match (splitOnChar '.' idea.data).filter (fun s => 0 < (jsTrim (String.mk s)).length) with
    | s :: _ => JVal.jstr (jsTrim (String.mk s) ++ ".")
    | [] => JVal.jstr "undefined."

/-- `generateDefaultFileStructure`: the fixed default MERN layout. -/
def generateDefaultFileStructure : JVal :=
  JVal.jobj
    [("client/", JVal.jobj
       [("public/", JVal.jarr [JVal.jstr "index.html", JVal.jstr "favicon.ico"]),
        ("src/", JVal.jobj
          [("components/", JVal.jarr [JVal.jstr "Header.jsx", JVal.jstr "Footer.jsx", JVal.jstr "Layout.jsx"]),
           ("pages/", JVal.jarr [JVal.jstr "Home.jsx", JVal.jstr "Login.jsx", JVal.jstr "Dashboard.jsx"]),
           ("services/", JVal.jarr [JVal.jstr "api.js", JVal.jstr "auth.js"]),
           ("utils/", JVal.jarr [JVal.jstr "helpers.js", JVal.jstr "constants.js"]),
           ("hooks/", JVal.jarr [JVal.jstr "useAuth.js", JVal.jstr "useApi.js"]),
           ("context/", JVal.jarr [JVal.jstr "AuthContext.jsx"])]),
        ("package.json", JVal.jnull),
        ("vite.config.js", JVal.jnull),
        ("tailwind.config.js", JVal.jnull)]),
     ("server/", JVal.jobj
       [("routes/", JVal.jarr [JVal.jstr "auth.js", JVal.jstr "users.js", JVal.jstr "api.js"]),
        ("models/", JVal.jarr [JVal.jstr "User.js", JVal.jstr "Data.js"]),
        ("middleware/", JVal.jarr [JVal.jstr "auth.js", JVal.jstr "validation.js"]),
        ("services/", JVal.jarr [JVal.jstr "database.js", JVal.jstr "email.js"]),
        ("utils/", JVal.jarr [JVal.jstr "helpers.js", JVal.jstr "validators.js"]),
        ("config/", JVal.jarr [JVal.jstr "database.js", JVal.jstr "environment.js"])]),
     ("package.json", JVal.jnull),
     ("README.md", JVal.jnull),
     (".env.example", JVal.jnull)]

/-!  ## Template rendering -/

/-- Decimal rendering of a parsed JSON number (JavaScript `toString` on
the magnitudes the sources can meet). -/
def numDisplay (m e : Int) : String :=
  if 0 ≤ e then toString (m * 10 ^ e.toNat)
  else
    let k := (-e).toNat
    let sign := if m < 0 then "-" else ""
    let raw := Nat.toDigits 10 m.natAbs
    let ds := List.replicate (k + 1 - raw.length) '0' ++ raw
    let ip := ds.take (ds.length - k)
    let fp := ((ds.drop (ds.length - k)).reverse.dropWhile (fun c => c = '0')).reverse
    if fp = [] then sign ++ String.mk ip
    else sign ++ String.mk ip ++ "." ++ String.mk fp

/-- JavaScript string conversion of a value interpolated into a template
literal, fuel-indexed for the nested array case (`join(',')` with
`null`/`undefined` elements shown as empty). -/
def jsDisplayF : Nat → JVal → String
  | 0, _ => ""
  | _ + 1, JVal.undef => "undefined"
  | _ + 1, JVal.jnull => "null"
  | _ + 1, JVal.jbool true => "true"
  | _ + 1, JVal.jbool false => "false"
  | _ + 1, JVal.jnum m e => numDisplay m e
  | _ + 1, JVal.jstr s => s
  | f + 1, JVal.jarr l =>
    String.intercalate "," (l.map fun w =>
      match w with
      | JVal.undef => ""
      | JVal.jnull => ""
      | w2 => jsDisplayF f w2)
  | _ + 1, JVal.jobj _ => "[object Object]"

mutual

/-- Size of a JavaScript value, bounding the recursion depth of
`jsDisplayF`. -/
def jvalSize : JVal → Nat
  | JVal.jarr l => 1 + jvalSizeL l
  | JVal.jobj fs => 1 + jvalSizeF fs
  | _ => 1

/-- Summed sizes of a list of values. -/
def jvalSizeL : List JVal → Nat
  | [] => 0
  | v :: vs => jvalSize v + jvalSizeL vs

/-- Summed sizes of the values of an object field list. -/
def jvalSizeF : List (String × JVal) → Nat
  | [] => 0
  | p :: ps => jvalSize p.2 + jvalSizeF ps

end

/-- See `jsDisplayF`; `jvalSize` bounds the nesting depth. -/
def jsDisplay (v : JVal) : String := jsDisplayF (jvalSize v) v

/-- Sections 1 to 3 of the fixed template text (between the tech-stack
list and the features-integration list), verbatim from the source. -/
def tmplMid : String := "### 1. Project Setup & Structure\nCreate a full-stack MERN application with the following structure:\n\n```\nproject-root/\n├── client/                 # React frontend\n│   ├── public/\n│   │   ├── index.html\n│   │   └── favicon.ico\n│   ├── src/\n│   │   ├── components/     # Reusable UI components\n│   │   ├── pages/          # Page components\n│   │   ├── services/       # API calls and utilities\n│   │   ├── hooks/          # Custom React hooks\n│   │   ├── context/        # React Context providers\n│   │   ├── utils/          # Helper functions\n│   │   ├── App.jsx         # Main App component\n│   │   └── main.jsx        # Entry point\n│   ├── package.json\n│   ├── vite.config.js\n│   └── tailwind.config.js\n├── server/                 # Node.js backend\n│   ├── routes/             # API route handlers\n│   ├── models/             # MongoDB models\n│   ├── middleware/         # Express middleware\n│   ├── services/           # Business logic\n│   ├── utils/              # Helper functions\n│   ├── config/             # Configuration files\n│   └── server.js           # Entry point\n├── package.json            # Root package.json for scripts\n├── README.md\n└── .env.example\n```\n\n### 2. Backend Development\n\n#### Database Models (MongoDB/Mongoose)\nCreate Mongoose schemas for:\n- User authentication and profiles\n- Core data entities based on the business logic\n- Relationships between entities\n\n#### API Endpoints\nDesign RESTful API with the following structure:\n- `POST /api/auth/register` - User registration\n- `POST /api/auth/login` - User login\n- `GET /api/auth/profile` - Get user profile\n- Additional endpoints based on features\n\n#### Authentication & Security\n- JWT-based authentication\n- Password hashing with bcrypt\n- Input validation and sanitization\n- CORS configuration\n- Rate limiting\n\n### 3. Frontend Development\n\n#### React Components\n- Create responsive, accessible components\n- Use React hooks for state management\n- Implement proper error boundaries\n- Follow component composition patterns\n\n#### State Management\n- Use React Context for global state\n- Implement custom hooks for business logic\n- Handle loading and error states\n\n#### UI/UX Design\n- Mobile-first responsive design\n- Modern UI with Tailwind CSS\n- Consistent design system\n- Accessible components"

/-- Sections 5 to the end of the fixed template text, verbatim from the
source. -/
def tmplTail : String := "### 5. Environment Setup\n\n#### Dependencies\n**Frontend:**\n```bash\nnpm create vite@latest client -- --template react\ncd client\nnpm install axios react-router-dom @headlessui/react\nnpm install -D tailwindcss postcss autoprefixer\n```\n\n**Backend:**\n```bash\nnpm init -y\nnpm install express mongoose cors helmet bcryptjs jsonwebtoken dotenv\nnpm install -D nodemon\n```\n\n#### Environment Variables\nCreate `.env` file with:\n- MongoDB connection string\n- JWT secret\n- API keys (if needed)\n- Server port configuration\n\n### 6. Development Workflow\n\n1. Set up the project structure\n2. Configure development environment\n3. Implement authentication system\n4. Build core backend API\n5. Create React frontend components\n6. Integrate frontend with backend\n7. Add advanced features\n8. Implement error handling\n9. Add input validation\n10. Test all functionality\n\n### 7. Production Considerations\n\n- Environment configuration\n- Database optimization\n- Security hardening\n- Performance monitoring\n- Error logging\n- Backup strategies\n\n## Getting Started\n\n1. Clone or create the project structure\n2. Install dependencies for both client and server\n3. Set up environment variables\n4. Start MongoDB service\n5. Run `npm run dev` to start both frontend and backend\n6. Begin development following the outlined structure\n\n## Testing Strategy\n\n- Unit tests for utilities and services\n- Integration tests for API endpoints\n- Component tests for React components\n- End-to-end testing for critical user flows\n\nGenerate this complete application following modern development best practices, with clean, well-documented, and production-ready code."

/-- `createComprehensiveTemplate` from code-prompt-generator.js: the
template literal with its interpolations `companyName`, `summary`, `idea`
and the two feature/tech-stack joins made explicit. -/
def createComprehensiveTemplate (idea : String) (pitchData : JVal)
    (techStack features : List String) (summary : JVal) : String :=
  let companyName :=
    if truthy (getField pitchData "name") then jsDisplay (getField pitchData "name")
    else "YourStartup"
  "# " ++ (companyName ++ " - Complete MERN Stack Development Guide\n\n## Project Overview\n"
    ++ jsDisplay summary
    ++ "\n\n**Original Idea:** " ++ idea
    ++ "\n\n## Project Requirements\n\n### Core Features\n"
    ++ String.intercalate "\n" (features.map fun f => "- " ++ f)
    ++ "\n\n### Technology Stack\n"
    ++ String.intercalate "\n" (techStack.map fun t => "- " ++ t)
    ++ "\n\n## Detailed Development Instructions\n\n"
    ++ tmplMid
    ++ "\n\n### 4. Integration & Features\n"
    ++ String.intercalate "\n" (features.map fun f => "- Implement " ++ f ++ " with full functionality")
    ++ "\n\n"
    ++ tmplTail)

/-!  ## The prompt-generation pipeline -/

/-- Result record of code-prompt generation (`CodePromptResult`).  Fields
hold JavaScript values: on the parsed-JSON path the code copies remote
fields unchecked except `techStack`, so they need not be strings. -/
structure CodePromptResult where
  prompt : JVal
  techStack : JVal
  fileStructure : JVal
  summary : JVal
  features : JVal

/-- The shared fallback result of `parseStructuredResponse` (built
identically at its two `return` sites: no JSON-looking span, and parse or
field-check failure). -/
def parseFallback (content idea : String) (pitchData : JVal) : CodePromptResult :=
  { prompt := JVal.jstr content
    techStack := JVal.jarr ((inferTechStack idea content).map JVal.jstr)
    fileStructure := generateDefaultFileStructure
    summary := generateSummary idea pitchData
    features := JVal.jarr ((extractFeatures content idea).map JVal.jstr) }

/-- `parseStructuredResponse` from code-prompt-generator.js: extract the
greedy `/\{[\s\S]*\}/` span, `JSON.parse` it, and when the parse succeeds
with truthy `prompt` and `techStack` copy the parsed fields (with the
`Array.isArray` guard on `techStack` and `||`-defaults on the rest);
otherwise treat the whole content as the prompt and infer the remaining
fields locally. -/
def parseStructuredResponse (content idea : String) (pitchData : JVal) : CodePromptResult :=
  match jsonSpanOf content with
  | some span =>
    (match parseJson span with
     | some parsed =>
       if truthy (getField parsed "prompt") && truthy (getField parsed "techStack") then
         { prompt := getField parsed "prompt"
           techStack :=
             match getField parsed "techStack" with
             | JVal.jarr l => JVal.jarr l
             | _ => JVal.jarr []
           fileStructure :=
             if truthy (getField parsed "fileStructure") then getField parsed "fileStructure"
             else generateDefaultFileStructure
           summary :=
             if truthy (getField parsed "summary") then getField parsed "summary"
             else generateSummary idea pitchData
           features :=
             if truthy (getField parsed "features") then getField parsed "features"
             else JVal.jarr [] }
       else parseFallback content idea pitchData
     | none => parseFallback content idea pitchData)
  | none => parseFallback content idea pitchData

/-- `generateIntelligentTemplate` from code-prompt-generator.js. -/
def generateIntelligentTemplate (idea : String) (pitchData : JVal) : CodePromptResult :=
  let techStack := inferTechStack idea ""
  let features := extractFeaturesFromIdea idea
  let summary := generateSummary idea pitchData
  { prompt := JVal.jstr (createComprehensiveTemplate idea pitchData techStack features summary)
    techStack := JVal.jarr (techStack.map JVal.jstr)
    fileStructure := generateDefaultFileStructure
    summary := summary
    features := JVal.jarr (features.map JVal.jstr) }

/-- The failure kinds of the remote generation step absorbed by
`generateEnhancedCodePrompt`: the missing-key throw of
`generateDynamicPrompt` plus the axios/parse failure modes. -/
inductive RemoteError where
  | missingKey : RemoteError
  | auth : RemoteError
  | quota : RemoteError
  | rateLimit : RemoteError
  | network : RemoteError
  | timeout : RemoteError
  | malformed : RemoteError

/-- Outcome of the awaited remote call inside `generateDynamicPrompt`:
either the completion text, or one of the failure kinds. -/
inductive RemoteOutcome where
  | ok : String → RemoteOutcome
  | err : RemoteError → RemoteOutcome

/-- `generateEnhancedCodePrompt`: try the dynamic path and on any thrown
error fall back to `generateIntelligentTemplate` (the `try`/`catch` of the
source; a successful remote reply flows into `parseStructuredResponse`,
which itself never throws). -/
def generateEnhancedCodePrompt (idea : String) (pitchData : JVal)
    (remote : RemoteOutcome) : CodePromptResult :=
  match remote with
  | RemoteOutcome.ok content => parseStructuredResponse content idea pitchData
  | RemoteOutcome.err _ => generateIntelligentTemplate idea pitchData

/-!  ## The POST /code-prompt route -/

/-- The `data` object of a successful /code-prompt response. -/
structure CPData where
  prompt : JVal
  techStack : JVal
  fileStructure : JVal
  summary : JVal
  features : JVal
  generatedAt : String

/-- A /code-prompt HTTP response. -/
structure CPResp where
  status : Nat
  success : Bool
  error : Option String
  message : Option String
  details : Option (List String)
  data : Option CPData

/-- The POST /code-prompt handler of src/server/routes/code-prompt.js:
validate, reject with 400 on failure, otherwise generate from the trimmed
idea and the `pitchData || null` context and answer 200.  `generatedAt`
(`new Date().toISOString()`) is passed in as `now`.  The catch-all branch
of the source is unreachable in this model because the generator absorbs
every remote failure. -/
def codePromptRoute (idea pitchData : JVal) (remote : RemoteOutcome) (now : String) : CPResp :=
  let vr := validateCodePromptInput idea pitchData
  if vr.isValid = false then
    { status := 400, success := false, error := some "Validation failed",
      message := vr.error, details := some vr.details, data := none }
  else
    let promptData := generateEnhancedCodePrompt (jsTrim (strOf idea))
      (if truthy pitchData then pitchData else JVal.jnull) remote
    { status := 200, success := true, error := none, message := none, details := none,
      data := some
        { prompt := promptData.prompt, techStack := promptData.techStack,
          fileStructure := promptData.fileStructure, summary := promptData.summary,
          features := promptData.features, generatedAt := now } }

/-- Iterative brace-depth scan used by `specFirstBalancedSpan`: collect
characters (reversed in `acc`) until the depth opened by the leading brace
returns to zero. -/
def balancedTake : List Char → Nat → List Char → Option (List Char)
  | [], _, _ => none
  | c :: cs, depth, acc =>
    if c = '{' then balancedTake cs (depth + 1) (c :: acc)
    else if c = '}' then
      (if depth = 1 then some (c :: acc).reverse else balancedTake cs (depth - 1) (c :: acc))
    else balancedTake cs depth (c :: acc)

/-- Modelled from the spec: the "first balanced `\x7b...\x7d` span" that §4.6
of the specification says the prompt-path parser locates.  Written from
the spec text (not the source) so it can be compared with `jsonSpanOf`,
the greedy first-`\x7b`-to-last-`\x7d` span the code actually extracts. -/
def specFirstBalancedSpan (content : String) : Option String :=
  match dropUntilChar '{' content.data with
  | none => none
  | some tail => (balancedTake tail 0 []).map String.mk

/-- The remote text contains no parseable JSON object in the sense of
`parseStructuredResponse`: either no `/\{[\s\S]*\}/` match, or the matched
span is not valid JSON. -/
def noParseableJsonObject (content : String) : Bool :=
  match jsonSpanOf content with
  | none => true
  | some sp => (parseJson sp).isNone

/-!  ## The POST /generate route and the DeepSeek pitch client -/

/-- A /generate HTTP response.  The error bodies of the source carry only
`error` and `message`; the success body carries `success: true` and
`data`. -/
structure GenResp where
  status : Nat
  success : Bool
  error : Option String
  message : Option String
  data : Option JVal

/-- deepseek.js constructs its axios client only when `DEEPSEEK_API_KEY`
is set, non-empty and not the placeholder value; otherwise the client
stays `null` and `generatePitch` throws its not-configured error. -/
def dsConfigured : Option String → Bool
  | none => false
  | some k => if k = "" ∨ k = "your-deepseek-api-key-here" then false else true

/-- Outcome of the awaited DeepSeek chat call inside `generatePitch`:
an HTTP 200 reply with the completion content, an HTTP error status
(axios `error.response`), or no response at all (axios `error.request`). -/
inductive DsCall where
  | reply : String → DsCall
  | httpError : Nat → String → DsCall
  | noResponse : DsCall

/-- `generatePitch` from deepseek.js as the route observes it: every
failure is a thrown `Error` whose message is built by the catch block
(401/429/402/other translation, no-response message, JSON `SyntaxError`
message, or the generic wrapper around the structural checks thrown
inside the `try`). -/
def generatePitchM (dsKey : Option String) (call : DsCall) : Except String JVal :=
  if dsConfigured dsKey = false then
    Except.error "DeepSeek is not configured. Please set a valid DEEPSEEK_API_KEY in your .env file."
  else
    match call with
    | DsCall.httpError status msg =>
      if status = 401 then
        Except.error "Invalid DeepSeek API key. Please check your configuration."
      else if status = 429 then
        Except.error "DeepSeek API rate limit exceeded. Please try again later."
      else if status = 402 then
        Except.error "DeepSeek API quota exceeded. Please check your billing."
      else Except.error ("DeepSeek API error (" ++ toString status ++ "): " ++ msg)
    | DsCall.noResponse =>
      Except.error "No response from DeepSeek API. Please check your internet connection."
    | DsCall.reply content =>
      match parseJson content with
      | none =>
        Except.error "Failed to parse DeepSeek response. The AI may have returned invalid JSON."
      | some result =>
        if truthy (getField result "name") = false ∨ truthy (getField result "elevator") = false
            ∨ truthy (getField result "slides") = false
            ∨ isArr (getField result "slides") = false then
          Except.error "Failed to generate pitch: Invalid response structure from DeepSeek"
        else
          match getField result "slides" with
          | JVal.jarr slides =>
            if slides.length < 3 ∨ 5 < slides.length then
              Except.error "Failed to generate pitch: Invalid number of slides (should be 3-5)"
            else Except.ok result
          | _ =>
            Except.error "Failed to generate pitch: Invalid response structure from DeepSeek"

/-- The POST /generate handler of src/unnamed/part_012: inline validation
with three 400 bodies, the `OPENAI_API_KEY` configuration gate with its
500 body, then `generatePitch`; any thrown error becomes the 500
failed-to-generate body.  The database save is inside its own
`try`/`catch` and never affects the response, so it is not modelled. -/
def pitchRoute (idea : JVal) (openaiKey : Bool) (dsKey : Option String) (call : DsCall) : GenResp :=
  if truthy idea = false ∨ typeofStr idea ≠ "string" then
    { status := 400, success := false, error := some "Invalid request",
      message := some "Please provide a valid startup idea description.", data := none }
  else if (jsTrim (strOf idea)).length < 10 then
    { status := 400, success := false, error := some "Idea too short",
      message := some "Please provide a more detailed description of your startup idea (at least 10 characters).",
      data := none }
  else if 2000 < (strOf idea).length then
    { status := 400, success := false, error := some "Idea too long",
      message := some "Please keep your startup idea description under 2000 characters.", data := none }
  else if openaiKey = false then
    { status := 500, success := false, error := some "Configuration error",
      message := some "OpenAI API key is not configured. Please check server configuration.",
      data := none }
  else
    match generatePitchM dsKey call with
    | Except.error msg =>
      { status := 500, success := false, error := some "Failed to generate pitch",
        message := some msg, data := none }
    | Except.ok pitchData =>
      { status := 200, success := true, error := none, message := none, data := some pitchData }

/-- The /generate validation gate as one predicate: idea truthy, a string,
trimmed length at least 10, raw length at most 2000 (the route checks the
raw length against 2000 but the trimmed length against 10). -/
def pitchIdeaValid (idea : JVal) : Bool :=
  truthy idea && (typeofStr idea == "string")
    && decide (10 ≤ (jsTrim (strOf idea)).length) && decide ((strOf idea).length ≤ 2000)

/-- Counterexample input for C5: a well-formed JSON object followed by
more text and a second brace pair. -/
def c5content : String := "\x7b\"prompt\":\"p\",\"techStack\":[\"T\"]\x7d x \x7b\"a\":1\x7d"

/-- The first balanced span inside `c5content`. -/
def w5span : String := "\x7b\"prompt\":\"p\",\"techStack\":[\"T\"]\x7d"

/-- The JSON value of `w5span`. -/
def w5v : JVal := JVal.jobj [("prompt", JVal.jstr "p"), ("techStack", JVal.jarr [JVal.jstr "T"])]

/-- Witness input for C5 (amended): prose-wrapped JSON whose greedy span
is exactly the object. -/
def w5content : String := "Sure! Here is the JSON: \x7b\"prompt\":\"p\",\"techStack\":[\"T\"]\x7d"

/-- Witness idea for C6. -/
def w6idea : String := "An online store for handmade pottery"

/-- Witness remote text for C6: contains no brace pair. -/
def w6content : String := "The model replied with plain text only"

/-!  ## Sanity examples and claim theorems -/

example : (validateCodePromptInput (JVal.jstr "A mobile app for booking rides") JVal.undef).isValid = true := by decide

example : (validateCodePromptInput (JVal.jstr "short") JVal.undef).details = ["Idea must be at least 10 characters long"] := by decide

example : (validateCodePromptInput (JVal.jstr "bad <script> idea") JVal.undef).details = ["Idea contains potentially harmful content"] := by decide

example : (validateCodePromptInput (JVal.jstr "<script") JVal.undef).details = ["Idea must be at least 10 characters long", "Idea contains potentially harmful content"] := by decide

example : (validateCodePromptInput (JVal.jstr "          ") JVal.undef).isValid = false := by decide

example : (validateCodePromptInput (JVal.jstr "A mobile app for booking rides") (JVal.jobj [("name", JVal.jnum 0 0)])).details = [] := by decide

example : parseJson "\x7b\"a\":1\x7d" = some (JVal.jobj [("a", JVal.jnum 1 0)]) := by rfl

example : parseJson "\x7b\"a\":1\x7d oops" = none := by rfl

example : parseJson " [1.5, true, null, \"x\"] " =
    some (JVal.jarr [JVal.jnum 15 (-1), JVal.jbool true, JVal.jnull, JVal.jstr "x"]) := by rfl

example : jsonSpanOf "ab\x7bc\x7bd\x7de\x7df" = some "\x7bc\x7bd\x7de\x7d" := by rfl

example : jsonSpanOf "no braces at all" = none := by rfl

example : extractFeaturesFromIdea "zzz qqq" =
    ["Core Application Logic", "User Interface", "Data Management"] := by rfl

example : extractFeaturesFromIdea "users can sign up and pay" =
    ["User Registration & Authentication", "Payment Processing"] := by rfl

example : generateSummary "One. Two." JVal.undef = JVal.jstr "One." := by rfl

example : generateSummary ".........." JVal.undef = JVal.jstr "undefined." := by rfl

example : inferTechStack "chat with payments" "" =
    ["MongoDB", "Express.js", "React", "Node.js", "Tailwind CSS", "Stripe", "Socket.io",
     "Swagger/OpenAPI", "Vite", "ESLint", "Prettier"] := by rfl

theorem ideaErrorsOf_sublist (idea : JVal) :
    List.Sublist (ideaErrorsOf idea) ideaMsgOrder := by
  unfold ideaErrorsOf
  split
  · decide
  · split
    · split_ifs <;> decide
    · decide

theorem pitchErrorsOf_sublist (pd : JVal) :
    List.Sublist (pitchErrorsOf pd) pitchMsgOrder := by
  cases pd <;> simp only [pitchErrorsOf] <;> first
    | decide
    | (split_ifs <;> decide)

/-- C2: for every idea value and optional pitch context the validator
returns a result with `isValid` true exactly when no rule fired, `details`
holding the violation messages in the fixed rule order (required,
must-be-string, empty/short/long, harmful content, pitch-data shape),
`error` equal to the first entry of `details` (none when empty), and the
harmful-content message accumulated whenever the trimmed idea matches a
blocked pattern — also when a length rule has already fired. -/
theorem c2_validator_shape (idea pd : JVal) :
    ((validateCodePromptInput idea pd).isValid = true ↔
      (validateCodePromptInput idea pd).details = []) ∧
    (validateCodePromptInput idea pd).error = (validateCodePromptInput idea pd).details.head? ∧
    List.Sublist (validateCodePromptInput idea pd).details canonicalMsgOrder ∧
    (∀ s, idea = JVal.jstr s → s ≠ "" → harmfulTest (jsTrim s) = true →
      "Idea contains potentially harmful content" ∈ (validateCodePromptInput idea pd).details) := by
  refine ⟨?_, rfl, ?_, ?_⟩
  · simp [validateCodePromptInput]
  · exact List.Sublist.append (ideaErrorsOf_sublist idea) (pitchErrorsOf_sublist pd)
  · intro s hs hne hharm
    subst hs
    have htr : truthy (JVal.jstr s) = true := by simp [truthy, hne]
    simp [validateCodePromptInput, ideaErrorsOf, htr, hharm]

/-- Witness for C2 at a concrete input: a too-short idea containing a
blocked pattern, with a non-object pitch context. -/
theorem c2_validator_shape_witness :
    "Idea contains potentially harmful content" ∈
      (validateCodePromptInput (JVal.jstr "<script") (JVal.jstr "ctx")).details :=
  (c2_validator_shape (JVal.jstr "<script") (JVal.jstr "ctx")).2.2.2 "<script" rfl
    (by decide) (by decide)

/-- C3 as stated is false: a string of ten spaces has length 10 and
contains no blocked pattern, yet the validator rejects it, because the
length rules run on the trimmed idea. -/
theorem c3_counterexample :
    (10 ≤ ("          " : String).length ∧ ("          " : String).length ≤ 2000 ∧
      harmfulTest "          " = false) ∧
    (validateCodePromptInput (JVal.jstr "          ") JVal.undef).isValid = false := by
  exact ⟨⟨by decide, by decide, by decide⟩, by decide⟩

/-- C3 amended: for every idea string whose trimmed length is in
[10, 2000] and whose trimmed form contains none of the blocked patterns,
the validator called with no pitch context returns `isValid` true. -/
theorem c3_amended (s : String) (h1 : 10 ≤ (jsTrim s).length) (h2 : (jsTrim s).length ≤ 2000)
    (h3 : harmfulTest (jsTrim s) = false) :
    (validateCodePromptInput (JVal.jstr s) JVal.undef).isValid = true := by
  have hs : s ≠ "" := by
    intro h
    subst h
    simp [jsTrim] at h1
  have h0 : ¬ ((jsTrim s).length = 0) := by omega
  have hlt : ¬ ((jsTrim s).length < 10) := by omega
  have hgt : ¬ (2000 < (jsTrim s).length) := by omega
  simp [validateCodePromptInput, ideaErrorsOf, pitchErrorsOf, truthy, hs, h0, hlt, hgt, h3]

/-- Witness for C3 (amended) at a concrete valid idea. -/
theorem c3_amended_witness :
    (validateCodePromptInput (JVal.jstr "  A web app for plant care reminders  ")
      JVal.undef).isValid = true :=
  c3_amended "  A web app for plant care reminders  " (by decide) (by decide) (by decide)

/-- C9 as stated is false: a context whose `name` field is present with the
number 0 is an object whose `name` is not a string, yet no pitch-name
violation is appended, because the code only checks `name` when it is
truthy (`if (name && typeof name !== 'string')`). -/
theorem c9_counterexample :
    getField (JVal.jobj [("name", JVal.jnum 0 0)]) "name" = JVal.jnum 0 0 ∧
    typeofStr (JVal.jnum 0 0) ≠ "string" ∧
    (validateCodePromptInput (JVal.jstr "A recipe sharing site for home cooks")
      (JVal.jobj [("name", JVal.jnum 0 0)])).details = [] ∧
    (validateCodePromptInput (JVal.jstr "A recipe sharing site for home cooks")
      (JVal.jobj [("name", JVal.jnum 0 0)])).isValid = true := by
  exact ⟨rfl, by decide, by decide, by decide⟩

/-- C9 amended: a supplied non-object context appends the object message;
for an object context each of `name`/`elevator`/`slides` appends its
distinct message whenever it is present *and truthy* with the wrong type
(the code skips falsy fields). -/
theorem c9_amended (idea pd : JVal) :
    (pd ≠ JVal.undef → pd ≠ JVal.jnull → typeofStr pd ≠ "object" →
      "Pitch data must be an object" ∈ (validateCodePromptInput idea pd).details) ∧
    (typeofStr pd = "object" → pd ≠ JVal.jnull →
      ((truthy (getField pd "name") = true → typeofStr (getField pd "name") ≠ "string" →
        "Pitch name must be a string" ∈ (validateCodePromptInput idea pd).details) ∧
       (truthy (getField pd "elevator") = true → typeofStr (getField pd "elevator") ≠ "string" →
        "Elevator pitch must be a string" ∈ (validateCodePromptInput idea pd).details) ∧
       (truthy (getField pd "slides") = true → isArr (getField pd "slides") = false →
        "Slides must be an array" ∈ (validateCodePromptInput idea pd).details))) := by
  have hlift : ∀ msg, msg ∈ pitchErrorsOf pd → msg ∈ (validateCodePromptInput idea pd).details := by
    intro msg h
    simp only [validateCodePromptInput, List.mem_append]
    exact Or.inr h
  constructor
  · intro hu hn hobj
    apply hlift
    cases pd <;> simp_all [pitchErrorsOf, typeofStr]
  · intro hobj hn
    refine ⟨?_, ?_, ?_⟩ <;> intro ht hty <;> apply hlift <;>
      cases pd <;> simp_all [pitchErrorsOf, typeofStr, getField, truthy, isArr]

/-- Witness for C9 (amended): an object context with a truthy numeric
`name`, a boolean `elevator` and a string `slides` receives all three
distinct violation messages. -/
theorem c9_amended_witness :
    "Pitch name must be a string" ∈
      (validateCodePromptInput (JVal.jstr "An online tutoring platform for kids")
        (JVal.jobj [("name", JVal.jnum 3 0), ("elevator", JVal.jbool true),
          ("slides", JVal.jstr "not-an-array")])).details ∧
    "Elevator pitch must be a string" ∈
      (validateCodePromptInput (JVal.jstr "An online tutoring platform for kids")
        (JVal.jobj [("name", JVal.jnum 3 0), ("elevator", JVal.jbool true),
          ("slides", JVal.jstr "not-an-array")])).details ∧
    "Slides must be an array" ∈
      (validateCodePromptInput (JVal.jstr "An online tutoring platform for kids")
        (JVal.jobj [("name", JVal.jnum 3 0), ("elevator", JVal.jbool true),
          ("slides", JVal.jstr "not-an-array")])).details := by
  have h := (c9_amended (JVal.jstr "An online tutoring platform for kids")
    (JVal.jobj [("name", JVal.jnum 3 0), ("elevator", JVal.jbool true),
      ("slides", JVal.jstr "not-an-array")])).2 rfl (fun h => JVal.noConfusion h)
  exact ⟨h.1 rfl (by decide), h.2.1 rfl (by decide), h.2.2 rfl rfl⟩


theorem inferTechStack_ne_nil (idea content : String) : inferTechStack idea content ≠ [] := by
  unfold inferTechStack
  intro h
  simp at h

theorem extractFeaturesFromIdea_ne_nil (idea : String) : extractFeaturesFromIdea idea ≠ [] := by
  have key : ∀ l : List String,
      (if l.isEmpty = true then ["Core Application Logic", "User Interface", "Data Management"]
       else l) ≠ [] := by
    intro l
    split
    · simp
    · simp_all [List.isEmpty_iff]
  unfold extractFeaturesFromIdea
  exact key _

theorem createComprehensiveTemplate_ne_empty (idea : String) (pd : JVal)
    (ts fs : List String) (sm : JVal) :
    createComprehensiveTemplate idea pd ts fs sm ≠ "" := by
  unfold createComprehensiveTemplate
  intro h
  have h2 := congrArg String.length h
  rw [String.length_append] at h2
  have h3 : ("# " : String).length = 2 := rfl
  have h4 : ("" : String).length = 0 := rfl
  omega

/-- C1: for every input that passes the validator, code-prompt generation
absorbs each defined failure kind of the remote step (missing key, auth,
quota, rate limit, network, timeout, parse) by falling back to the
deterministic template, and the result of that fallback always has a
non-empty prompt, non-empty tech stack and non-empty feature list.  The
embedding is a total function, which reflects that the `try`/`catch` of
`generateEnhancedCodePrompt` lets no error escape. -/
theorem c1_fallback_guarantee (idea : String) (pd : JVal) (e : RemoteError)
    (h : (validateCodePromptInput (JVal.jstr idea) pd).isValid = true) :
    ∃ ps ts fs,
      (generateEnhancedCodePrompt idea pd (RemoteOutcome.err e)).prompt = JVal.jstr ps ∧ ps ≠ "" ∧
      (generateEnhancedCodePrompt idea pd (RemoteOutcome.err e)).techStack = JVal.jarr ts ∧
      ts ≠ [] ∧
      (generateEnhancedCodePrompt idea pd (RemoteOutcome.err e)).features = JVal.jarr fs ∧
      fs ≠ [] := by
  refine ⟨createComprehensiveTemplate idea pd (inferTechStack idea "")
      (extractFeaturesFromIdea idea) (generateSummary idea pd),
    (inferTechStack idea "").map JVal.jstr,
    (extractFeaturesFromIdea idea).map JVal.jstr,
    rfl, createComprehensiveTemplate_ne_empty idea pd (inferTechStack idea "")
      (extractFeaturesFromIdea idea) (generateSummary idea pd),
    rfl, ?_, rfl, ?_⟩
  · simp [inferTechStack_ne_nil idea ""]
  · simp [extractFeaturesFromIdea_ne_nil idea]

/-- Witness for C1 at a concrete valid idea and the rate-limit failure. -/
theorem c1_fallback_guarantee_witness :
    ∃ ps ts fs,
      (generateEnhancedCodePrompt "A marketplace for local artisans" JVal.undef
        (RemoteOutcome.err RemoteError.rateLimit)).prompt = JVal.jstr ps ∧ ps ≠ "" ∧
      (generateEnhancedCodePrompt "A marketplace for local artisans" JVal.undef
        (RemoteOutcome.err RemoteError.rateLimit)).techStack = JVal.jarr ts ∧ ts ≠ [] ∧
      (generateEnhancedCodePrompt "A marketplace for local artisans" JVal.undef
        (RemoteOutcome.err RemoteError.rateLimit)).features = JVal.jarr fs ∧ fs ≠ [] :=
  c1_fallback_guarantee "A marketplace for local artisans" JVal.undef RemoteError.rateLimit
    (by decide)

/-- C5 as stated is false: the code does not locate the first balanced
brace span.  In `c5content` that balanced span parses as a JSON object
with truthy `prompt` and `techStack`, so the claim requires the result to
take its `prompt` from it ("p"); but the code extracts the greedy span
from the first brace to the last, whose parse fails, so the whole raw
content becomes the prompt. -/
theorem c5_counterexample :
    specFirstBalancedSpan c5content = some w5span ∧
    parseJson w5span = some w5v ∧
    truthy (getField w5v "prompt") = true ∧
    truthy (getField w5v "techStack") = true ∧
    getField w5v "prompt" = JVal.jstr "p" ∧
    (parseStructuredResponse c5content "A simple journaling app for busy people"
      JVal.undef).prompt = JVal.jstr c5content ∧
    JVal.jstr c5content ≠ JVal.jstr "p" := by
  refine ⟨rfl, rfl, rfl, rfl, rfl, rfl, ?_⟩
  intro h
  injection h with h2
  revert h2
  decide

/-- C5 amended: the parser extracts the span from the first `\x7b` to the
last `\x7d` of the raw text (the greedy regex match, not a balanced-brace
search) and parses that; whenever this parse yields a JSON object with
truthy `prompt` and `techStack`, the result copies those fields (with the
`Array.isArray` guard on `techStack`) and takes the parsed
`fileStructure`/`summary`/`features` when truthy, otherwise the default
layout, the derived summary, and the empty feature list. -/
theorem c5_amended (content idea : String) (pd : JVal) (span : String) (v : JVal)
    (h1 : jsonSpanOf content = some span) (h2 : parseJson span = some v)
    (h3 : truthy (getField v "prompt") = true) (h4 : truthy (getField v "techStack") = true) :
    parseStructuredResponse content idea pd =
      { prompt := getField v "prompt"
        techStack :=
          match getField v "techStack" with
          | JVal.jarr l => JVal.jarr l
          | _ => JVal.jarr []
        fileStructure :=
          if truthy (getField v "fileStructure") then getField v "fileStructure"
          else generateDefaultFileStructure
        summary :=
          if truthy (getField v "summary") then getField v "summary"
          else generateSummary idea pd
        features :=
          if truthy (getField v "features") then getField v "features"
          else JVal.jarr [] } := by
  unfold parseStructuredResponse
  rw [h1]
  dsimp only
  rw [h2]
  dsimp only
  rw [h3, h4]
  rfl

/-- Witness for C5 (amended) on prose-wrapped JSON. -/
theorem c5_amended_witness :
    parseStructuredResponse w5content "A habit tracker for remote teams" JVal.undef =
      { prompt := getField w5v "prompt"
        techStack :=
          match getField w5v "techStack" with
          | JVal.jarr l => JVal.jarr l
          | _ => JVal.jarr []
        fileStructure :=
          if truthy (getField w5v "fileStructure") then getField w5v "fileStructure"
          else generateDefaultFileStructure
        summary :=
          if truthy (getField w5v "summary") then getField w5v "summary"
          else generateSummary "A habit tracker for remote teams" JVal.undef
        features :=
          if truthy (getField w5v "features") then getField w5v "features"
          else JVal.jarr [] } :=
  c5_amended w5content "A habit tracker for remote teams" JVal.undef w5span w5v rfl rfl rfl rfl

/-- C6: for every valid idea, when the remote call succeeds but its text
contains no parseable JSON object, the /code-prompt route answers 200
success with the raw remote text as the prompt, the locally inferred tech
stack and features (from the trimmed idea and the raw text), and the
default file structure; this fallback-on-parse-failure path never
throws. -/
theorem c6_parse_failure_fallback (s : String) (pd : JVal) (content now : String)
    (hv : (validateCodePromptInput (JVal.jstr s) pd).isValid = true)
    (hc : noParseableJsonObject content = true) :
    (codePromptRoute (JVal.jstr s) pd (RemoteOutcome.ok content) now).status = 200 ∧
    (codePromptRoute (JVal.jstr s) pd (RemoteOutcome.ok content) now).success = true ∧
    (codePromptRoute (JVal.jstr s) pd (RemoteOutcome.ok content) now).data = some
      { prompt := JVal.jstr content
        techStack := JVal.jarr ((inferTechStack (jsTrim s) content).map JVal.jstr)
        fileStructure := generateDefaultFileStructure
        summary := generateSummary (jsTrim s) (if truthy pd then pd else JVal.jnull)
        features := JVal.jarr ((extractFeatures content (jsTrim s)).map JVal.jstr)
        generatedAt := now } := by
  have hps : parseStructuredResponse content (jsTrim s) (if truthy pd then pd else JVal.jnull) =
      parseFallback content (jsTrim s) (if truthy pd then pd else JVal.jnull) := by
    unfold noParseableJsonObject at hc
    unfold parseStructuredResponse
    cases hsp : jsonSpanOf content with
    | none => rfl
    | some sp =>
      rw [hsp] at hc
      rw [Option.isNone_iff_eq_none] at hc
      dsimp only
      rw [hc]
  unfold codePromptRoute
  dsimp only
  rw [hv]
  dsimp only [generateEnhancedCodePrompt, strOf]
  rw [hps]
  exact ⟨rfl, rfl, rfl⟩

/-- Witness for C6 at a concrete valid idea and brace-free remote text. -/
theorem c6_parse_failure_fallback_witness :
    (codePromptRoute (JVal.jstr w6idea) JVal.undef (RemoteOutcome.ok w6content)
      "2026-01-01T00:00:00.000Z").status = 200 ∧
    (codePromptRoute (JVal.jstr w6idea) JVal.undef (RemoteOutcome.ok w6content)
      "2026-01-01T00:00:00.000Z").success = true ∧
    (codePromptRoute (JVal.jstr w6idea) JVal.undef (RemoteOutcome.ok w6content)
      "2026-01-01T00:00:00.000Z").data = some
      { prompt := JVal.jstr w6content
        techStack := JVal.jarr ((inferTechStack (jsTrim w6idea) w6content).map JVal.jstr)
        fileStructure := generateDefaultFileStructure
        summary := generateSummary (jsTrim w6idea)
          (if truthy JVal.undef then JVal.undef else JVal.jnull)
        features := JVal.jarr ((extractFeatures w6content (jsTrim w6idea)).map JVal.jstr)
        generatedAt := "2026-01-01T00:00:00.000Z" } :=
  c6_parse_failure_fallback w6idea JVal.undef w6content "2026-01-01T00:00:00.000Z"
    (by decide) (by decide)

/-- C7: the template renderer is a pure total function of its five
well-typed inputs, so two calls with identical inputs return identical
strings; totality of the Lean definition reflects that the source builds
the string from total operations only and cannot throw. -/
theorem c7_template_deterministic (idea : String) (pd : JVal) (ts fs : List String) (sm : JVal) :
    createComprehensiveTemplate idea pd ts fs sm = createComprehensiveTemplate idea pd ts fs sm :=
  rfl

/-- C8: code bug.  For a valid idea with no non-empty sentence segment the
source evaluates `sentences[0]?.trim() + '.'`, where optional chaining
yields `undefined` and string concatenation turns it into the truthy
string "undefined.", so the `|| idea.substring(0, 150) + '...'` fallback
claimed by the spec is dead code: the summary is the literal string
"undefined.", not the truncated idea. -/
theorem c8_summary_code_bug :
    generateSummary ".........." JVal.undef = JVal.jstr "undefined." ∧
    generateSummary ".........." JVal.undef ≠ JVal.jstr (".........." ++ "...") ∧
    (validateCodePromptInput (JVal.jstr "..........") JVal.undef).isValid = true := by
  refine ⟨rfl, ?_, by decide⟩
  intro h
  injection h with h2
  revert h2
  decide

/-- C4 as stated is false: on a valid idea with both keys configured, a
remote rate-limit rejection (HTTP 429 from the DeepSeek call) is answered
with status 500, not 429 — the /generate route maps every thrown
generation error to 500. -/
theorem c4_counterexample :
    generatePitchM (some "sk-live-key") (DsCall.httpError 429 "Too Many Requests") =
      Except.error "DeepSeek API rate limit exceeded. Please try again later." ∧
    (pitchRoute (JVal.jstr "A subscription box for rare teas") true (some "sk-live-key")
      (DsCall.httpError 429 "Too Many Requests")).status = 500 ∧
    (pitchRoute (JVal.jstr "A subscription box for rare teas") true (some "sk-live-key")
      (DsCall.httpError 429 "Too Many Requests")).status ≠ 429 := by
  refine ⟨rfl, by decide, by decide⟩

/-- C4 amended: every failed /generate response carries the
`\x7berror, message\x7d` body; the status is 400 exactly when the inline
input validation fails, 500 for every other failure (configuration,
auth, quota, rate limit, network, parse, structure), and 200 only for
the success body — the route never produces 401 or 429. -/
theorem c4_amended (idea : JVal) (oa : Bool) (dsKey : Option String) (call : DsCall) :
    ((pitchRoute idea oa dsKey call).status = 400 ↔ pitchIdeaValid idea = false) ∧
    ((pitchRoute idea oa dsKey call).status = 200 ∨ (pitchRoute idea oa dsKey call).status = 400
      ∨ (pitchRoute idea oa dsKey call).status = 500) ∧
    ((pitchRoute idea oa dsKey call).status ≠ 200 →
      (pitchRoute idea oa dsKey call).error.isSome = true ∧
      (pitchRoute idea oa dsKey call).message.isSome = true) ∧
    ((pitchRoute idea oa dsKey call).status = 200 → (pitchRoute idea oa dsKey call).success = true) := by
  unfold pitchRoute pitchIdeaValid
  split_ifs with h1 h2 h3 h4
  · rcases h1 with h1 | h1 <;> simp [h1]
  · simp_all [decide_eq_false_iff_not]
  · simp_all [decide_eq_false_iff_not]
  · push_neg at h1
    simp_all [decide_eq_true_eq]
  · push_neg at h1
    cases hgen : generatePitchM dsKey call with
    | error msg => simp_all [decide_eq_true_eq]
    | ok v => simp_all [decide_eq_true_eq]

/-- Witness for C4 (amended): a too-short idea is answered with 400. -/
theorem c4_amended_witness :
    (pitchRoute (JVal.jstr "Short") true (some "sk-live-key") DsCall.noResponse).status = 400 :=
  ((c4_amended (JVal.jstr "Short") true (some "sk-live-key") DsCall.noResponse).1).mpr (by decide)

/-- C10: the /generate configuration gate tests `OPENAI_API_KEY` while the
DeepSeek client is built iff `DEEPSEEK_API_KEY` is usable.  For a valid
idea: with DeepSeek configured but OpenAI absent the route answers the
500 "Configuration error" body without invoking `generatePitch` (the
response is independent of the remote call outcome); with OpenAI set but
DeepSeek unconfigured, `generatePitch` throws its not-configured error,
surfaced as 500. -/
theorem c10_config_gate (s : String) (dsKey : Option String) (call1 call2 : DsCall)
    (hvalid : pitchIdeaValid (JVal.jstr s) = true) :
    (dsConfigured dsKey = true →
      pitchRoute (JVal.jstr s) false dsKey call1 = pitchRoute (JVal.jstr s) false dsKey call2 ∧
      (pitchRoute (JVal.jstr s) false dsKey call1).status = 500 ∧
      (pitchRoute (JVal.jstr s) false dsKey call1).error = some "Configuration error" ∧
      (pitchRoute (JVal.jstr s) false dsKey call1).message =
        some "OpenAI API key is not configured. Please check server configuration.") ∧
    (dsConfigured dsKey = false →
      (pitchRoute (JVal.jstr s) true dsKey call1).status = 500 ∧
      (pitchRoute (JVal.jstr s) true dsKey call1).error = some "Failed to generate pitch" ∧
      (pitchRoute (JVal.jstr s) true dsKey call1).message =
        some "DeepSeek is not configured. Please set a valid DEEPSEEK_API_KEY in your .env file.") := by
  unfold pitchIdeaValid at hvalid
  simp only [Bool.and_eq_true, decide_eq_true_eq, beq_iff_eq] at hvalid
  obtain ⟨⟨⟨ht, hty⟩, hlen10⟩, hlen2000⟩ := hvalid
  have hc1 : (truthy (JVal.jstr s) = false ∨ typeofStr (JVal.jstr s) ≠ "string") = False :=
    eq_false (by simp [ht, hty])
  have hc2 : ((jsTrim (strOf (JVal.jstr s))).length < 10) = False := eq_false (by omega)
  have hc3 : (2000 < (strOf (JVal.jstr s)).length) = False := eq_false (by omega)
  constructor
  · intro _
    simp only [pitchRoute, hc1, hc2, hc3, if_false]
    simp
  · intro hds
    simp only [pitchRoute, hc1, hc2, hc3, if_false]
    simp [generatePitchM, hds]

/-- Witness for C10: a valid idea, first with DeepSeek configured and
OpenAI absent, then with OpenAI set and DeepSeek unconfigured. -/
theorem c10_config_gate_witness :
    (pitchRoute (JVal.jstr "A carpooling app for commuters") false (some "sk-live-key")
      DsCall.noResponse).status = 500 ∧
    (pitchRoute (JVal.jstr "A carpooling app for commuters") true none
      (DsCall.reply "x")).status = 500 := by
  have h1 := c10_config_gate "A carpooling app for commuters" (some "sk-live-key")
    DsCall.noResponse (DsCall.reply "x") (by decide)
  have h2 := c10_config_gate "A carpooling app for commuters" none
    (DsCall.reply "x") DsCall.noResponse (by decide)
  exact ⟨(h1.1 (by decide)).2.1, (h2.2 (by decide)).1⟩
